import Mathlib

/-!
Shallow embedding of the Sonic Circle backend (`src/main.py`) and proofs of
the specification claims about it.

The embedding models:
  * the durable store (`users` and `connections` tables) as lists of records;
  * the external Spotify catalog API as deterministic per-token data sources
    returning `Option` values (`none` = the upstream call raised);
  * every endpoint with real logic as a Lean function over an `Env`,
    translated statement-by-statement from the Python source.
-/

/-- A row of the `users` table (`class User`, src/main.py lines 34-46).
The source variant in `src/` has no e-mail or expiry column. -/
structure User where
  id : Nat
  spotify_id : String
  access_token : String
  refresh_token : String
  deriving DecidableEq, Repr

/-- A row of the `connections` table (`class Connection`, lines 48-59):
a directed edge from `user_id` to `connected_user_id`. -/
structure Connection where
  user_id : Nat
  connected_user_id : Nat
  deriving DecidableEq, Repr

/-- A reference to an artist as embedded in a track item (`track["artists"][i]`);
only its `name` field is read by the source. -/
structure ArtistRef where
  name : String
  deriving DecidableEq, Repr

/-- A track's album object: `track["album"]` with its `name` and the list of
artwork URLs (`images[i]["url"]`). -/
structure Album where
  name : String
  images : List String
  deriving DecidableEq, Repr

/-- A raw track item as returned by `current_user_top_tracks(...)["items"]`. -/
structure RawTrack where
  id : String
  name : String
  artists : List ArtistRef
  album : Album
  spotify_url : String
  deriving DecidableEq, Repr

/-- A raw artist item as returned by `current_user_top_artists(...)["items"]`.
`genres` is `none` when the key is absent (the source reads it with
`artist.get("genres", [])`); `images` is the list of image URLs. -/
structure RawArtist where
  id : String
  name : String
  genres : Option (List String)
  popularity : Nat
  images : List String
  spotify_url : String
  deriving DecidableEq, Repr

/-- The payload of `sp.current_user()`: display name (key may be absent),
profile image URLs (key absent collapses with the empty list, both falsy),
and the external URL. -/
structure Profile where
  display_name : Option String
  images : List String
  spotify_url : String
  deriving DecidableEq, Repr

/-- The world an endpoint runs against: the two database tables plus the
external catalog API, modelled as deterministic per-access-token data
sources.  A `none` result models the upstream call raising
(network/auth failure); a call with `limit=n` returns the first `n`
items of the token's ranked list. -/
structure Env where
  users : List User
  connections : List Connection
  profileOf : String → Option Profile
  topArtistsOf : String → Option (List RawArtist)
  topTracksOf : String → Option (List RawTrack)

/-- The error taxonomy of the endpoints.  `notFound` is the explicit 404,
`duplicate` the explicit 400 for an existing connection, `upstream` an
uncaught exception from the catalog API, `indexError` an uncaught
first-element access on an empty collection.  `insufficientData` is the
distinct error the spec asks a robust reimplementation to raise; the
source never raises it. -/
inductive ApiErr where
  | notFound
  | duplicate
  | upstream
  | indexError
  | insufficientData
  deriving DecidableEq, Repr

/-- `POST /connect/{user_id}/{connected_user_id}` (src/main.py lines 213-228).
Rejects when a forward edge already exists, otherwise inserts both the
forward and the reverse edge.  Only the `connections` table is consulted. -/
def connect_users (env : Env) (user_id connected_user_id : Nat) :
    Except ApiErr (List Connection) :=
  let existing := env.connections.find? fun c =>
    c.user_id == user_id && c.connected_user_id == connected_user_id
  match existing with
  | some _ => .error .duplicate
  | none =>
      .ok (env.connections ++
        [{ user_id := user_id, connected_user_id := connected_user_id },
         { user_id := connected_user_id, connected_user_id := user_id }])

/-- One entry of the `GET /linked-users` response. -/
structure LinkedUser where
  id : Nat
  spotify_id : String
  deriving DecidableEq, Repr

/-- `GET /linked-users/{user_id}` (lines 232-245): collect the targets of the
outgoing edges of `user_id` and join them against live user rows. -/
def get_linked_users (env : Env) (user_id : Nat) : List LinkedUser :=
  let connections := env.connections.filter fun c => c.user_id == user_id
  let linked_user_ids := connections.map fun c => c.connected_user_id
  let linked_users := env.users.filter fun u => linked_user_ids.contains u.id
  linked_users.map fun u => { id := u.id, spotify_id := u.spotify_id }

/-- One entry of the `GET /top-tracks` response (lines 128-137).  Note the
source reads `track["album"]["images"][0]["url"]` without a guard, so the
album image here is a plain string, not an optional one. -/
structure TrackItem where
  name : String
  artist : String
  album : String
  spotify_url : String
  album_image : String
  deriving DecidableEq, Repr

/-- Normalization of one raw track by `GET /top-tracks` (lines 129-135):
`track["artists"][0]["name"]` and `track["album"]["images"][0]["url"]` are
unguarded first-element accesses, so the result is `none` (an uncaught
IndexError) when either list is empty. -/
def trackItem (track : RawTrack) : Option TrackItem :=
  match track.artists, track.album.images with
  | a0 :: _, img0 :: _ =>
      some { name := track.name, artist := a0.name, album := track.album.name,
             spotify_url := track.spotify_url, album_image := img0 }
  | _, _ => none

/-- `GET /top-tracks` (lines 119-139): 404 when the user id is unknown,
otherwise fetch the top 50 tracks with the stored access token and
normalize each item. -/
def get_top_tracks (env : Env) (user_id : Nat) : Except ApiErr (List TrackItem) :=
  match env.users.find? fun u => u.id == user_id with
  | none => .error .notFound
  | some user =>
    match env.topTracksOf user.access_token with
    | none => .error .upstream
    | some raw =>
      match (raw.take 50).mapM trackItem with
      | none => .error .indexError
      | some tracks => .ok tracks

/-- One entry of the `GET /top-artists` response (lines 151-160). -/
structure ArtistItem where
  name : String
  genres : List String
  popularity : Nat
  spotify_url : String
  image : Option String
  deriving DecidableEq, Repr

/-- Normalization of one raw artist by `GET /top-artists` (lines 152-158):
`artist.get("genres", [])` defaults a missing genre list to `[]`, and
`artist["images"][0]["url"] if artist["images"] else None` guards the
image access, so this never fails. -/
def artistItem (artist : RawArtist) : ArtistItem :=
  { name := artist.name, genres := artist.genres.getD [],
    popularity := artist.popularity, spotify_url := artist.spotify_url,
    image := artist.images.head? }

/-- `GET /top-artists` (lines 142-162). -/
def get_top_artists (env : Env) (user_id : Nat) : Except ApiErr (List ArtistItem) :=
  match env.users.find? fun u => u.id == user_id with
  | none => .error .notFound
  | some user =>
    match env.topArtistsOf user.access_token with
    | none => .error .upstream
    | some raw => .ok ((raw.take 50).map artistItem)

/-- The `top_artist` block of the profile and compare responses
(lines 262-266, 348-352, 364-368): the image access is guarded. -/
structure TopArtistCard where
  name : String
  image : Option String
  spotify_url : String
  deriving DecidableEq, Repr

/-- Materialize `current_user_top_artists(limit=1)["items"][0]` into its
card; `none` models the uncaught IndexError on an empty item list. -/
def topArtistCard (items : List RawArtist) : Option TopArtistCard :=
  match items with
  | [] => none
  | a :: _ => some { name := a.name, image := a.images.head?,
                     spotify_url := a.spotify_url }

/-- The `top_track` block of the profile and compare responses
(lines 267-272, 342-347, 358-363): both `track["artists"][0]` and
`track["album"]["images"][0]` are unguarded. -/
structure TopTrackCard where
  name : String
  artist : String
  album_image : String
  spotify_url : String
  deriving DecidableEq, Repr

/-- Materialize `current_user_top_tracks(limit=1)["items"][0]` into its
card; `none` models the uncaught IndexError on an empty item list, an
empty artist list or an empty album image list. -/
def topTrackCard (items : List RawTrack) : Option TopTrackCard :=
  match items with
  | [] => none
  | t :: _ =>
    match t.artists, t.album.images with
    | a0 :: _, img0 :: _ =>
        some { name := t.name, artist := a0.name, album_image := img0,
               spotify_url := t.spotify_url }
    | _, _ => none

/-- The `GET /profile/{user_id}` response (lines 259-273). -/
structure ProfileOut where
  id : Nat
  spotify_id : String
  top_artist : TopArtistCard
  top_track : TopTrackCard
  deriving DecidableEq, Repr

/-- `GET /profile/{user_id}` (lines 248-273): 404 when the user id is
unknown, otherwise fetch the single top artist and single top track
(limit 1 each) and build the compact summary.  The first-element accesses
are unguarded in the source. -/
def user_profile (env : Env) (user_id : Nat) : Except ApiErr ProfileOut :=
  match env.users.find? fun u => u.id == user_id with
  | none => .error .notFound
  | some user =>
    match env.topArtistsOf user.access_token with
    | none => .error .upstream
    | some artistsAll =>
      match topArtistCard (artistsAll.take 1) with
      | none => .error .indexError
      | some top_artist =>
        match env.topTracksOf user.access_token with
        | none => .error .upstream
        | some tracksAll =>
          match topTrackCard (tracksAll.take 1) with
          | none => .error .indexError
          | some top_track =>
              .ok { id := user.id, spotify_id := user.spotify_id,
                    top_artist := top_artist, top_track := top_track }

/-- Modelled from the spec: the deployed schema's token-expiry column is
absent from `src/main.py` (its `User` has no expiry field and every endpoint
calls `spotipy.Spotify(auth=user.access_token)` directly); this record
follows §3 of the spec: access token, refresh token, and a nullable
expiry instant. -/
structure CredAccount where
  access_token : String
  refresh_token : String
  expires_at : Option Int
  deriving DecidableEq, Repr

/-- The provider's refresh-exchange response
(`refresh(refresh_token) → {access_token, refresh_token, expires_at}`). -/
structure TokenTriple where
  access_token : String
  refresh_token : String
  expires_at : Int
  deriving DecidableEq, Repr

/-- Modelled from the spec: the Credential Refresher step that precedes every
catalog call is absent from `src/main.py`; per §4.1, if the expiry instant is
set and less than 60 seconds away, perform one refresh exchange and persist
the updated triple atomically; otherwise use the stored token as-is.  The
result is the account as persisted after the check, paired with the number
of refresh exchanges performed. -/
def ensure_fresh_token (now : Int) (refresh : String → TokenTriple)
    (acct : CredAccount) : CredAccount × Nat :=
  match acct.expires_at with
  | none => (acct, 0)
  | some expiry =>
    if expiry - now < 60 then
      let t := refresh acct.refresh_token
      ({ access_token := t.access_token, refresh_token := t.refresh_token,
         expires_at := some t.expires_at }, 1)
    else (acct, 0)


/-- One entry of the `GET /suggested-links` response (lines 198-202). -/
structure Suggestion where
  id : Nat
  spotify_id : String
  shared_artist_count : Nat
  deriving DecidableEq, Repr

/-- The body of the candidate loop of `GET /suggested-links`
(lines 192-204): fetch the candidate's top-50 artists inside a `try`
(`none` = the fetch raised, the candidate is skipped), compute the overlap
with the subject's id set, and keep the candidate only when it is
positive. -/
def suggestionFor (env : Env) (current_artist_ids : Finset String)
    (user : User) : Option Suggestion :=
  match env.topArtistsOf user.access_token with
  | none => none
  | some artists =>
    if (current_artist_ids ∩
        ((artists.take 50).map RawArtist.id).toFinset).card > 0 then
      some { id := user.id, spotify_id := user.spotify_id,
             shared_artist_count :=
               (current_artist_ids ∩
                 ((artists.take 50).map RawArtist.id).toFinset).card }
    else none

/-- `GET /suggested-links/{user_id}` (lines 178-208): 404 when the subject id
is unknown; fetch the subject's top-50 artist ids (this fetch is outside the
per-candidate `try`, so its failure propagates); run the candidate loop over
every other user, and sort by overlap descending (`list.sort` is stable, as
is `List.mergeSort`). -/
def suggest_links (env : Env) (user_id : Nat) : Except ApiErr (List Suggestion) :=
  match env.users.find? fun u => u.id == user_id with
  | none => .error .notFound
  | some current_user =>
    match env.topArtistsOf current_user.access_token with
    | none => .error .upstream
    | some current_artists =>
      .ok ((((env.users.filter fun u => u.id != user_id).filterMap
          (suggestionFor env
            (((current_artists.take 50).map RawArtist.id).toFinset)))).mergeSort
        fun s t => t.shared_artist_count ≤ s.shared_artist_count)

/-- Insert key `k` with value `v` into an association list with Python-dict
semantics: an existing binding of `k` is overwritten in place, a new key is
appended.  Used to model the comprehension
`{track["id"]: track for track in user1_tracks_raw}` (lines 307, 323). -/
def updateAssoc {α : Type} (m : List (String × α)) (k : String) (v : α) :
    List (String × α) :=
  if m.any fun p => p.1 == k then
    m.map fun p => if p.1 == k then (k, v) else p
  else m ++ [(k, v)]

/-- Build the Python dict keyed by `key`: insertion order of first
occurrence, value of last occurrence. -/
def idMap {α : Type} (key : α → String) (items : List α) : List (String × α) :=
  items.foldl (fun m t => updateAssoc m (key t) t) []

/-- A Python list comprehension over fallible element expressions: the whole
list is produced only if every element materializes. -/
def listMapOption {α β : Type} (f : α → Option β) : List α → Option (List β)
  | [] => some []
  | a :: l =>
    match f a, listMapOption f l with
    | some b, some bs => some (b :: bs)
    | _, _ => none

/-- One record of the `shared_tracks` list of the compare response
(lines 311-320): the album image access is guarded, the
`track["artists"][0]` access is not. -/
structure SharedTrack where
  name : String
  artist : String
  spotify_url : String
  album_image : Option String
  deriving DecidableEq, Repr

/-- Materialize one shared track from (account 1's) raw record; `none`
models the uncaught IndexError on an empty artist list. -/
def sharedTrackOf (track : RawTrack) : Option SharedTrack :=
  match track.artists with
  | [] => none
  | a0 :: _ =>
      some { name := track.name, artist := a0.name,
             spotify_url := track.spotify_url,
             album_image := track.album.images.head? }

/-- One record of the `shared_artists` list of the compare response
(lines 327-335): every access is guarded, so materialization is total. -/
structure SharedArtist where
  name : String
  spotify_url : String
  image : Option String
  deriving DecidableEq, Repr

/-- Materialize one shared artist from (account 1's) raw record. -/
def sharedArtistOf (artist : RawArtist) : SharedArtist :=
  { name := artist.name, spotify_url := artist.spotify_url,
    image := artist.images.head? }

/-- Lines 306-320 of `compare_users`: key account 1's raw tracks by id,
intersect the key set with account 2's id set, and materialize each
surviving entry of account 1's dict. -/
def commonTracks (raw1 raw2 : List RawTrack) : Option (List SharedTrack) :=
  let user1_track_map := idMap RawTrack.id raw1
  let user2_track_ids := raw2.map RawTrack.id
  let shared_track_ids :=
    (user1_track_map.map Prod.fst).filter fun i => i ∈ user2_track_ids
  listMapOption (fun p => sharedTrackOf p.2)
    (user1_track_map.filter fun p => p.1 ∈ shared_track_ids)

/-- Lines 322-335 of `compare_users`: the artist analogue of
`commonTracks`; total because every field access is guarded. -/
def commonArtists (raw1 raw2 : List RawArtist) : List SharedArtist :=
  let user1_artist_map := idMap RawArtist.id raw1
  let user2_artist_ids := raw2.map RawArtist.id
  let shared_artist_ids :=
    (user1_artist_map.map Prod.fst).filter fun i => i ∈ user2_artist_ids
  (user1_artist_map.filter fun p => p.1 ∈ shared_artist_ids).map
    fun p => sharedArtistOf p.2

/-- The per-account block of the compare response (lines 338-369). -/
structure UserCard where
  display_name : Option String
  profile_image : Option String
  spotify_url : String
  top_track : TopTrackCard
  top_artist : TopArtistCard
  deriving DecidableEq, Repr

/-- Build one account's block of the compare response from its public
profile and its limit-1 top-artist and top-track item lists; `none` models
the uncaught IndexError of the unguarded accesses. -/
def userCard (profile : Profile) (topArtistItems : List RawArtist)
    (topTrackItems : List RawTrack) : Option UserCard :=
  match topArtistCard topArtistItems, topTrackCard topTrackItems with
  | some ta, some tt =>
      some { display_name := profile.display_name,
             profile_image := profile.images.head?,
             spotify_url := profile.spotify_url,
             top_track := tt, top_artist := ta }
  | _, _ => none

/-- The `GET /compare` response (lines 337-374). -/
structure CompareOut where
  user1 : UserCard
  user2 : UserCard
  shared_track_count : Nat
  shared_artist_count : Nat
  shared_tracks : List SharedTrack
  shared_artists : List SharedArtist
  deriving DecidableEq, Repr

/-- `GET /compare/{user_id}/{connected_user_id}` (lines 277-374): 404 unless
both accounts exist; fetch both public profiles, both limit-1 top items,
and both limit-50 top lists — none of these calls is inside a `try`, so any
failure aborts the whole comparison; intersect the two top-50 id sets per
kind and materialize the shared records from account 1's copies. -/
def compare_users (env : Env) (user_id connected_user_id : Nat) :
    Except ApiErr CompareOut :=
  match env.users.find? fun u => u.id == user_id,
        env.users.find? fun u => u.id == connected_user_id with
  | some user1, some user2 =>
    match env.profileOf user1.access_token, env.profileOf user2.access_token with
    | some profile1, some profile2 =>
      match env.topArtistsOf user1.access_token,
            env.topArtistsOf user2.access_token,
            env.topTracksOf user1.access_token,
            env.topTracksOf user2.access_token with
      | some artists1, some artists2, some tracks1, some tracks2 =>
        match userCard profile1 (artists1.take 1) (tracks1.take 1),
              userCard profile2 (artists2.take 1) (tracks2.take 1) with
        | some card1, some card2 =>
          match commonTracks (tracks1.take 50) (tracks2.take 50) with
          | none => .error .indexError
          | some shared_tracks =>
            .ok { user1 := card1, user2 := card2,
                  shared_track_count := shared_tracks.length,
                  shared_artist_count :=
                    (commonArtists (artists1.take 50) (artists2.take 50)).length,
                  shared_tracks := shared_tracks,
                  shared_artists :=
                    commonArtists (artists1.take 50) (artists2.take 50) }
        | _, _ => .error .indexError
      | _, _, _, _ => .error .upstream
    | _, _ => .error .upstream
  | _, _ => .error .notFound

/-- A raw artist fixture with id `i`, one image and an empty genre list. -/
def rawArtistOf (i : String) : RawArtist :=
  { id := i, name := i, genres := some [], popularity := 1,
    images := ["img"], spotify_url := i }

/-- A raw track fixture with id `i`, one performing artist and one album
image. -/
def rawTrackOf (i : String) : RawTrack :=
  { id := i, name := i, artists := [{ name := "A" }],
    album := { name := "Al", images := ["im"] }, spotify_url := i }

/-- A raw track fixture with id `i` whose album has no artwork. -/
def rawTrackNoArtOf (i : String) : RawTrack :=
  { id := i, name := i, artists := [{ name := "A" }],
    album := { name := "Al", images := [] }, spotify_url := i }

/-- A raw artist fixture with id `i`, no images and an absent genre key. -/
def rawArtistNoImageOf (i : String) : RawArtist :=
  { id := i, name := i, genres := none, popularity := 1,
    images := [], spotify_url := i }

/-- A concrete store with four accounts.  Account 1 listens to a1,a2,a3;
account 2 to a2,a3,a4 (overlap 2 with account 1); account 3 to b1
(overlap 0); account 4's taste fetch fails.  Tracks: account 1 plays s1,s2
and account 2 plays s2,s3 (overlap 1). -/
def envRank : Env :=
  { users := [{ id := 1, spotify_id := "sx", access_token := "t1",
                refresh_token := "r1" },
              { id := 2, spotify_id := "sy", access_token := "t2",
                refresh_token := "r2" },
              { id := 3, spotify_id := "sz", access_token := "t3",
                refresh_token := "r3" },
              { id := 4, spotify_id := "sw", access_token := "t4",
                refresh_token := "r4" }],
    connections := [],
    profileOf := fun t =>
      some { display_name := some t, images := ["p"], spotify_url := t },
    topArtistsOf := fun t =>
      if t = "t1" then some [rawArtistOf "a1", rawArtistOf "a2", rawArtistOf "a3"]
      else if t = "t2" then some [rawArtistOf "a2", rawArtistOf "a3", rawArtistOf "a4"]
      else if t = "t3" then some [rawArtistOf "b1"]
      else none,
    topTracksOf := fun t =>
      if t = "t1" then some [rawTrackOf "s1", rawTrackOf "s2"]
      else if t = "t2" then some [rawTrackOf "s2", rawTrackOf "s3"]
      else some [] }

/-- A concrete one-account store whose top-artist item list is empty and
whose single top track has an album without artwork. -/
def envNoData : Env :=
  { users := [{ id := 1, spotify_id := "sx", access_token := "t1",
                refresh_token := "r1" }],
    connections := [],
    profileOf := fun _ => none,
    topArtistsOf := fun _ => some [rawArtistNoImageOf "a1"],
    topTracksOf := fun _ => some [rawTrackNoArtOf "s1"] }

/-- The concrete compare response of `compare_users envRank 1 2`. -/
def cmpOut12 : CompareOut :=
  { user1 := { display_name := some "t1", profile_image := some "p",
               spotify_url := "t1",
               top_track := { name := "s1", artist := "A",
                              album_image := "im", spotify_url := "s1" },
               top_artist := { name := "a1", image := some "img",
                               spotify_url := "a1" } },
    user2 := { display_name := some "t2", profile_image := some "p",
               spotify_url := "t2",
               top_track := { name := "s2", artist := "A",
                              album_image := "im", spotify_url := "s2" },
               top_artist := { name := "a2", image := some "img",
                               spotify_url := "a2" } },
    shared_track_count := 1,
    shared_artist_count := 2,
    shared_tracks := [{ name := "s2", artist := "A", spotify_url := "s2",
                        album_image := some "im" }],
    shared_artists := [{ name := "a2", spotify_url := "a2",
                         image := some "img" },
                       { name := "a3", spotify_url := "a3",
                         image := some "img" }] }

/-- The concrete compare response of `compare_users envRank 2 1`. -/
def cmpOut21 : CompareOut :=
  { user1 := { display_name := some "t2", profile_image := some "p",
               spotify_url := "t2",
               top_track := { name := "s2", artist := "A",
                              album_image := "im", spotify_url := "s2" },
               top_artist := { name := "a2", image := some "img",
                               spotify_url := "a2" } },
    user2 := { display_name := some "t1", profile_image := some "p",
               spotify_url := "t1",
               top_track := { name := "s1", artist := "A",
                              album_image := "im", spotify_url := "s1" },
               top_artist := { name := "a1", image := some "img",
                               spotify_url := "a1" } },
    shared_track_count := 1,
    shared_artist_count := 2,
    shared_tracks := [{ name := "s2", artist := "A", spotify_url := "s2",
                        album_image := some "im" }],
    shared_artists := [{ name := "a2", spotify_url := "a2",
                         image := some "img" },
                       { name := "a3", spotify_url := "a3",
                         image := some "img" }] }


/-- The duplicate check of `connect_users` finds nothing exactly when no
forward edge is present. -/
lemma find_forward_none_iff (conns : List Connection) (a b : Nat) :
    (conns.find? fun c => c.user_id == a && c.connected_user_id == b) = none ↔
      ¬ ∃ c ∈ conns, c.user_id = a ∧ c.connected_user_id = b := by
  rw [List.find?_eq_none]
  simp [not_exists]

/-- When no forward edge A→B is present, `connect_users` succeeds and appends
the forward and reverse edges. -/
lemma connect_users_ok_of_no_forward (env : Env) (a b : Nat)
    (h : ¬ ∃ c ∈ env.connections, c.user_id = a ∧ c.connected_user_id = b) :
    connect_users env a b = .ok (env.connections ++
      [{ user_id := a, connected_user_id := b },
       { user_id := b, connected_user_id := a }]) := by
  simp only [connect_users, (find_forward_none_iff env.connections a b).mpr h]

/-- C5: `connect(A,B)` is rejected with DuplicateConnection exactly when a
forward edge A→B already exists; calling it twice yields DuplicateConnection
on the second call; a reverse edge alone does not cause rejection and both
edges are inserted anyway. -/
theorem connect_users_duplicate_forward_only (env : Env) (a b : Nat) :
    (connect_users env a b = .error .duplicate ↔
      ∃ c ∈ env.connections, c.user_id = a ∧ c.connected_user_id = b)
    ∧ (∀ conns2, connect_users env a b = .ok conns2 →
        connect_users { env with connections := conns2 } a b = .error .duplicate)
    ∧ ((¬ ∃ c ∈ env.connections, c.user_id = a ∧ c.connected_user_id = b) →
        connect_users env a b = .ok (env.connections ++
          [{ user_id := a, connected_user_id := b },
           { user_id := b, connected_user_id := a }])) := by
  have key : ∀ conns : List Connection,
      (conns.find? fun c => c.user_id == a && c.connected_user_id == b) = none ↔
        ¬ ∃ c ∈ conns, c.user_id = a ∧ c.connected_user_id = b := by
    intro conns
    rw [List.find?_eq_none]
    simp [not_exists]
  refine ⟨?_, ?_, ?_⟩
  · constructor
    · intro h
      by_contra hne
      have hnone := (key env.connections).mpr hne
      simp only [connect_users, hnone] at h
      exact Except.noConfusion h
    · intro ⟨c, hc, h1, h2⟩
      have : (env.connections.find? fun c =>
          c.user_id == a && c.connected_user_id == b) ≠ none := by
        intro hnone
        exact ((key env.connections).mp hnone) ⟨c, hc, h1, h2⟩
      rcases Option.ne_none_iff_exists.mp this with ⟨c', hc'⟩
      simp only [connect_users, ← hc']
  · intro conns2 h
    have hnone : (env.connections.find? fun c =>
        c.user_id == a && c.connected_user_id == b) = none := by
      by_contra hne
      rcases Option.ne_none_iff_exists.mp hne with ⟨c', hc'⟩
      simp only [connect_users, ← hc'] at h
      exact Except.noConfusion h
    simp only [connect_users, hnone, Except.ok.injEq] at h
    have hmem : ({ user_id := a, connected_user_id := b } : Connection) ∈ conns2 := by
      rw [← h]
      simp
    have : (conns2.find? fun c =>
        c.user_id == a && c.connected_user_id == b) ≠ none := by
      intro hnone2
      exact ((key conns2).mp hnone2) ⟨_, hmem, rfl, rfl⟩
    rcases Option.ne_none_iff_exists.mp this with ⟨c', hc'⟩
    simp only [connect_users, ← hc']
  · exact connect_users_ok_of_no_forward env a b

/-- Witness for C5 at a concrete store: with only the reverse edge 2→1
present, `connect(1,2)` succeeds and inserts both edges, and repeating it
is rejected as a duplicate. -/
theorem connect_users_duplicate_forward_only_witness :
    connect_users
        { users := [], connections := [{ user_id := 2, connected_user_id := 1 }],
          profileOf := fun _ => none, topArtistsOf := fun _ => none,
          topTracksOf := fun _ => none } 1 2 =
      .ok [{ user_id := 2, connected_user_id := 1 },
           { user_id := 1, connected_user_id := 2 },
           { user_id := 2, connected_user_id := 1 }]
    ∧ connect_users
        { users := [], connections :=
            [{ user_id := 2, connected_user_id := 1 },
             { user_id := 1, connected_user_id := 2 },
             { user_id := 2, connected_user_id := 1 }],
          profileOf := fun _ => none, topArtistsOf := fun _ => none,
          topTracksOf := fun _ => none } 1 2 = .error .duplicate := by
  constructor
  · exact (connect_users_duplicate_forward_only
      { users := [], connections := [{ user_id := 2, connected_user_id := 1 }],
        profileOf := fun _ => none, topArtistsOf := fun _ => none,
        topTracksOf := fun _ => none } 1 2).2.2 (by decide)
  · exact (connect_users_duplicate_forward_only
      { users := [], connections := [{ user_id := 2, connected_user_id := 1 }],
        profileOf := fun _ => none, topArtistsOf := fun _ => none,
        topTracksOf := fun _ => none } 1 2).2.1
      [{ user_id := 2, connected_user_id := 1 },
       { user_id := 1, connected_user_id := 2 },
       { user_id := 2, connected_user_id := 1 }] rfl

/-- C10: `connect(A,B)` performs no existence check on either account id:
it reads only the edge table (replacing the user table by the empty table
changes nothing), and whenever no forward edge A→B exists it succeeds and
inserts both edges — never `NotFound` — even if neither id is in the store. -/
theorem connect_users_no_existence_check (env : Env) (a b : Nat)
    (h : ¬ ∃ c ∈ env.connections, c.user_id = a ∧ c.connected_user_id = b) :
    connect_users env a b = connect_users { env with users := [] } a b
    ∧ connect_users env a b = .ok (env.connections ++
        [{ user_id := a, connected_user_id := b },
         { user_id := b, connected_user_id := a }]) :=
  ⟨rfl, connect_users_ok_of_no_forward env a b h⟩

/-- Witness for C10: on a store with no accounts at all, `connect(5,9)`
succeeds and inserts both edges. -/
theorem connect_users_no_existence_check_witness :
    connect_users
        { users := [], connections := [], profileOf := fun _ => none,
          topArtistsOf := fun _ => none, topTracksOf := fun _ => none } 5 9 =
      .ok [{ user_id := 5, connected_user_id := 9 },
           { user_id := 9, connected_user_id := 5 }] :=
  (connect_users_no_existence_check
    { users := [], connections := [], profileOf := fun _ => none,
      topArtistsOf := fun _ => none, topTracksOf := fun _ => none } 5 9
    (by decide)).2

/-- C6: whenever `connect(A,B)` succeeds for live accounts A and B it creates
exactly the two edges A→B and B→A, and afterwards `linked(A)` contains B and
`linked(B)` contains A. -/
theorem connect_users_creates_mutual_links (env : Env) (a b : Nat)
    (ua ub : User) (conns2 : List Connection)
    (hua : ua ∈ env.users) (hida : ua.id = a)
    (hub : ub ∈ env.users) (hidb : ub.id = b)
    (h : connect_users env a b = .ok conns2) :
    conns2 = env.connections ++
        [{ user_id := a, connected_user_id := b },
         { user_id := b, connected_user_id := a }]
    ∧ (∃ v ∈ get_linked_users { env with connections := conns2 } a, v.id = b)
    ∧ (∃ v ∈ get_linked_users { env with connections := conns2 } b, v.id = a) := by
  have hnone : (env.connections.find? fun c =>
      c.user_id == a && c.connected_user_id == b) = none := by
    by_contra hne
    rcases Option.ne_none_iff_exists.mp hne with ⟨c', hc'⟩
    simp only [connect_users, ← hc'] at h
    exact Except.noConfusion h
  simp only [connect_users, hnone, Except.ok.injEq] at h
  refine ⟨h.symm, ?_, ?_⟩
  · refine ⟨{ id := ub.id, spotify_id := ub.spotify_id }, ?_, hidb⟩
    simp only [get_linked_users, List.mem_map, List.mem_filter]
    refine ⟨ub, ⟨hub, ?_⟩, rfl⟩
    simp only [List.contains_eq_any_beq, List.any_eq_true, List.mem_map,
      List.mem_filter]
    exact ⟨b, ⟨{ user_id := a, connected_user_id := b }, ⟨by rw [← h]; simp,
      by simp⟩, rfl⟩, by simp [hidb]⟩
  · refine ⟨{ id := ua.id, spotify_id := ua.spotify_id }, ?_, hida⟩
    simp only [get_linked_users, List.mem_map, List.mem_filter]
    refine ⟨ua, ⟨hua, ?_⟩, rfl⟩
    simp only [List.contains_eq_any_beq, List.any_eq_true, List.mem_map,
      List.mem_filter]
    exact ⟨a, ⟨{ user_id := b, connected_user_id := a }, ⟨by rw [← h]; simp,
      by simp⟩, rfl⟩, by simp [hida]⟩

/-- Witness for C6: connecting accounts 1 and 2 on a concrete two-user store
creates both edges, and each account lists the other. -/
theorem connect_users_creates_mutual_links_witness :
    ({ user_id := 1, connected_user_id := 2 } :: [] :
        List Connection) ++ [] =
      [({ user_id := 1, connected_user_id := 2 } : Connection)]
    ∧ ([{ user_id := 1, connected_user_id := 2 },
        { user_id := 2, connected_user_id := 1 }] : List Connection) =
        [] ++ [{ user_id := 1, connected_user_id := 2 },
               { user_id := 2, connected_user_id := 1 }]
    ∧ (∃ v ∈ get_linked_users
          { users := [{ id := 1, spotify_id := "sx", access_token := "t1",
                        refresh_token := "r1" },
                      { id := 2, spotify_id := "sy", access_token := "t2",
                        refresh_token := "r2" }],
            connections := [{ user_id := 1, connected_user_id := 2 },
                            { user_id := 2, connected_user_id := 1 }],
            profileOf := fun _ => none, topArtistsOf := fun _ => none,
            topTracksOf := fun _ => none } 1, v.id = 2)
    ∧ (∃ v ∈ get_linked_users
          { users := [{ id := 1, spotify_id := "sx", access_token := "t1",
                        refresh_token := "r1" },
                      { id := 2, spotify_id := "sy", access_token := "t2",
                        refresh_token := "r2" }],
            connections := [{ user_id := 1, connected_user_id := 2 },
                            { user_id := 2, connected_user_id := 1 }],
            profileOf := fun _ => none, topArtistsOf := fun _ => none,
            topTracksOf := fun _ => none } 2, v.id = 1) := by
  have h := connect_users_creates_mutual_links
    { users := [{ id := 1, spotify_id := "sx", access_token := "t1",
                  refresh_token := "r1" },
                { id := 2, spotify_id := "sy", access_token := "t2",
                  refresh_token := "r2" }],
      connections := [], profileOf := fun _ => none,
      topArtistsOf := fun _ => none, topTracksOf := fun _ => none }
    1 2
    { id := 1, spotify_id := "sx", access_token := "t1", refresh_token := "r1" }
    { id := 2, spotify_id := "sy", access_token := "t2", refresh_token := "r2" }
    [{ user_id := 1, connected_user_id := 2 },
     { user_id := 2, connected_user_id := 1 }]
    (by decide) rfl (by decide) rfl rfl
  exact ⟨rfl, h.1, h.2.1, h.2.2⟩


/-- C7: before a catalog call, the Credential Refresher checks the stored
expiry: when it is set and less than 60 seconds away it performs exactly one
refresh exchange and persists the full updated triple; when it is unset or
10 minutes (600 seconds) away it performs zero refresh calls and keeps the
stored credentials as-is. -/
theorem ensure_fresh_token_policy (now : Int) (refresh : String → TokenTriple)
    (acct : CredAccount) :
    (∀ expiry, acct.expires_at = some expiry → expiry - now < 60 →
      ensure_fresh_token now refresh acct =
        ({ access_token := (refresh acct.refresh_token).access_token,
           refresh_token := (refresh acct.refresh_token).refresh_token,
           expires_at := some (refresh acct.refresh_token).expires_at }, 1))
    ∧ (acct.expires_at = none → ensure_fresh_token now refresh acct = (acct, 0))
    ∧ (acct.expires_at = some (now + 600) →
        ensure_fresh_token now refresh acct = (acct, 0)) := by
  refine ⟨?_, ?_, ?_⟩
  · intro expiry hexp hlt
    simp [ensure_fresh_token, hexp, hlt]
  · intro hexp
    simp [ensure_fresh_token, hexp]
  · intro hexp
    have : ¬ (now + 600 - now < 60) := by omega
    simp [ensure_fresh_token, hexp, this]

/-- Witness for C7: an account expiring 30 seconds from now triggers exactly
one refresh whose triple is persisted; an account expiring in 10 minutes and
an account with no stored expiry trigger none. -/
theorem ensure_fresh_token_policy_witness :
    ({ access_token := "old", refresh_token := "r", expires_at := some 30 } :
        CredAccount).expires_at = some 30
    ∧ (30 : Int) - 0 < 60
    ∧ ensure_fresh_token 0
        (fun _ => { access_token := "newA", refresh_token := "newR",
                    expires_at := 3600 })
        { access_token := "old", refresh_token := "r", expires_at := some 30 } =
      ({ access_token := "newA", refresh_token := "newR",
         expires_at := some 3600 }, 1)
    ∧ ensure_fresh_token 0
        (fun _ => { access_token := "newA", refresh_token := "newR",
                    expires_at := 3600 })
        { access_token := "old", refresh_token := "r",
          expires_at := some 600 } =
      ({ access_token := "old", refresh_token := "r",
         expires_at := some 600 }, 0)
    ∧ ensure_fresh_token 0
        (fun _ => { access_token := "newA", refresh_token := "newR",
                    expires_at := 3600 })
        { access_token := "old", refresh_token := "r", expires_at := none } =
      ({ access_token := "old", refresh_token := "r", expires_at := none }, 0) := by
  refine ⟨rfl, by decide, ?_, ?_, ?_⟩
  · exact (ensure_fresh_token_policy 0 _ _).1 30 rfl (by decide)
  · exact (ensure_fresh_token_policy 0
      (fun _ => { access_token := "newA", refresh_token := "newR",
                  expires_at := 3600 })
      { access_token := "old", refresh_token := "r",
        expires_at := some 600 }).2.2 (by norm_num)
  · exact (ensure_fresh_token_policy 0 _ _).2.1 rfl

/-- C8 counterexample: with account 1 present but an empty top-artist item
collection, the profile endpoint aborts with the generic uncaught index
error, not with a distinct InsufficientData error. -/
theorem user_profile_counterexample_no_insufficient_data :
    user_profile
        { users := [{ id := 1, spotify_id := "sx", access_token := "t1",
                      refresh_token := "r1" }],
          connections := [], profileOf := fun _ => none,
          topArtistsOf := fun _ => some [],
          topTracksOf := fun _ => some [] } 1 = .error .indexError
    ∧ user_profile
        { users := [{ id := 1, spotify_id := "sx", access_token := "t1",
                      refresh_token := "r1" }],
          connections := [], profileOf := fun _ => none,
          topArtistsOf := fun _ => some [],
          topTracksOf := fun _ => some [] } 1 ≠
        Except.error ApiErr.insufficientData := by
  refine ⟨rfl, ?_⟩
  intro h
  have h0 : user_profile
      { users := [{ id := 1, spotify_id := "sx", access_token := "t1",
                    refresh_token := "r1" }],
        connections := [], profileOf := fun _ => none,
        topArtistsOf := fun _ => some [],
        topTracksOf := fun _ => some [] } 1 = .error .indexError := rfl
  rw [h0] at h
  exact ApiErr.noConfusion (Except.error.inj h)

/-- C8 (amended): when the limit-1 top-artist or top-track fetch of an
existing account yields an empty item collection, the profile endpoint
aborts with the generic uncaught index error; no distinct InsufficientData
error is ever surfaced by it. -/
theorem user_profile_empty_items_generic_error (env : Env) (uid : Nat)
    (user : User) (hu : env.users.find? (fun u => u.id == uid) = some user) :
    (env.topArtistsOf user.access_token = some [] →
      user_profile env uid = .error .indexError)
    ∧ (∀ a rest, env.topArtistsOf user.access_token = some (a :: rest) →
        env.topTracksOf user.access_token = some [] →
        user_profile env uid = .error .indexError)
    ∧ user_profile env uid ≠ Except.error ApiErr.insufficientData := by
  refine ⟨?_, ?_, ?_⟩
  · intro h
    simp [user_profile, hu, h, topArtistCard]
  · intro a rest h ht
    simp [user_profile, hu, h, ht, topArtistCard, topTrackCard]
  · intro he
    unfold user_profile at he
    repeat' split at he
    all_goals simp_all


/-- C9: artist normalization tolerates an empty image list (null image) and a
missing genre list (empty list, never null), but track normalization in the
top-tracks fetch reads `track["album"]["images"][0]["url"]` unguarded: a
track whose album has no artwork makes the whole fetch abort instead of
yielding a null image field. -/
theorem track_normalization_fails_on_empty_album_art :
    artistItem (rawArtistNoImageOf "a1") =
      { name := "a1", genres := [], popularity := 1, spotify_url := "a1",
        image := none }
    ∧ trackItem (rawTrackNoArtOf "s1") = none
    ∧ get_top_artists envNoData 1 =
        .ok [{ name := "a1", genres := [], popularity := 1,
               spotify_url := "a1", image := none }]
    ∧ get_top_tracks envNoData 1 = .error .indexError :=
  ⟨rfl, rfl, rfl, rfl⟩

/-- Witness for the amended C8 at a concrete store: account 1 exists, its
top-artist item collection is empty, and the profile endpoint returns the
generic index error. -/
theorem user_profile_empty_items_generic_error_witness :
    user_profile
        { users := [{ id := 1, spotify_id := "sx", access_token := "t1",
                      refresh_token := "r1" }],
          connections := [], profileOf := fun _ => none,
          topArtistsOf := fun _ => some [],
          topTracksOf := fun _ => some [] } 1 = .error .indexError :=
  (user_profile_empty_items_generic_error
    { users := [{ id := 1, spotify_id := "sx", access_token := "t1",
                  refresh_token := "r1" }],
      connections := [], profileOf := fun _ => none,
      topArtistsOf := fun _ => some [],
      topTracksOf := fun _ => some [] } 1
    { id := 1, spotify_id := "sx", access_token := "t1",
      refresh_token := "r1" } rfl).1 rfl

/-- Every entry of `updateAssoc m k v` is an entry of `m` or the new
binding `(k, v)`. -/
lemma mem_updateAssoc {α : Type} (m : List (String × α)) (k : String) (v : α) :
    ∀ q ∈ updateAssoc m k v, q ∈ m ∨ q = (k, v) := by
  intro q hq
  unfold updateAssoc at hq
  split at hq
  · rcases List.mem_map.mp hq with ⟨p, hp, he⟩
    by_cases h : (p.1 == k) = true
    · right
      rw [← he, if_pos h]
    · left
      rw [← he, if_neg h]
      exact hp
  · rcases List.mem_append.mp hq with h | h
    · exact Or.inl h
    · exact Or.inr (List.mem_singleton.mp h)

/-- `updateAssoc` keeps the key list unchanged when the key is present and
appends it otherwise. -/
lemma keys_updateAssoc {α : Type} (m : List (String × α)) (k : String) (v : α) :
    (updateAssoc m k v).map Prod.fst =
      if m.any (fun p => p.1 == k) then m.map Prod.fst
      else m.map Prod.fst ++ [k] := by
  unfold updateAssoc
  split
  case isTrue h =>
    rw [List.map_map]
    have hf : (Prod.fst ∘ fun p : String × α => if p.1 == k then (k, v) else p) =
        Prod.fst := by
      funext p
      simp only [Function.comp]
      split
      case isTrue hp => exact (eq_of_beq hp).symm
      case isFalse hp => rfl
    rw [hf]
  case isFalse h =>
    simp

/-- Folding `updateAssoc` over a list preserves key-list nodup and makes the
key set the union of the seed's keys and the folded keys. -/
lemma foldl_updateAssoc_keys {α : Type} (key : α → String) :
    ∀ (l : List α) (m : List (String × α)), ((m.map Prod.fst).Nodup) →
      (((l.foldl (fun m t => updateAssoc m (key t) t) m).map Prod.fst).Nodup ∧
        ∀ x, x ∈ (l.foldl (fun m t => updateAssoc m (key t) t) m).map Prod.fst ↔
          x ∈ m.map Prod.fst ∨ x ∈ l.map key) := by
  intro l
  induction l with
  | nil =>
      intro m hm
      refine ⟨hm, ?_⟩
      simp
  | cons t ts ih =>
      intro m hm
      have hmem : ∀ x, x ∈ (updateAssoc m (key t) t).map Prod.fst ↔
          x ∈ m.map Prod.fst ∨ x = key t := by
        intro x
        rw [keys_updateAssoc]
        split
        case isTrue hany =>
          constructor
          · exact Or.inl
          · rintro (hx | rfl)
            · exact hx
            · rcases List.any_eq_true.mp hany with ⟨p, hp, hbeq⟩
              exact List.mem_map.mpr ⟨p, hp, eq_of_beq hbeq⟩
        case isFalse hany => simp
      have hnodup : ((updateAssoc m (key t) t).map Prod.fst).Nodup := by
        rw [keys_updateAssoc]
        split
        case isTrue hany => exact hm
        case isFalse hany =>
          refine hm.append (List.nodup_singleton _) ?_
          intro x hx hx2
          have hxk : x = key t := List.mem_singleton.mp hx2
          rcases List.mem_map.mp hx with ⟨p, hp, he⟩
          exact hany (List.any_eq_true.mpr ⟨p, hp, beq_iff_eq.mpr (he.trans hxk)⟩)
      obtain ⟨ihn, ihm⟩ := ih (updateAssoc m (key t) t) hnodup
      refine ⟨ihn, ?_⟩
      intro x
      rw [List.foldl_cons, ihm x, hmem x]
      simp only [List.map_cons, List.mem_cons]
      tauto

/-- The key list of `idMap` has no duplicates. -/
lemma idMap_keys_nodup {α : Type} (key : α → String) (l : List α) :
    ((idMap key l).map Prod.fst).Nodup :=
  (foldl_updateAssoc_keys key l [] (by simp)).1

/-- The keys of `idMap key l` are exactly the keys of `l`'s elements. -/
lemma mem_idMap_keys {α : Type} (key : α → String) (l : List α) (x : String) :
    x ∈ (idMap key l).map Prod.fst ↔ x ∈ l.map key := by
  have h := (foldl_updateAssoc_keys key l [] (by simp)).2 x
  simpa [idMap] using h

/-- Every entry of `idMap key l` carries an element of `l` under its own
key. -/
lemma idMap_mem {α : Type} (key : α → String) (l : List α) :
    ∀ q ∈ idMap key l, q.2 ∈ l ∧ q.1 = key q.2 := by
  suffices h : ∀ (l2 : List α) (m : List (String × α)),
      (∀ q ∈ m, q.2 ∈ l ∧ q.1 = key q.2) → (∀ t ∈ l2, t ∈ l) →
      ∀ q ∈ l2.foldl (fun m t => updateAssoc m (key t) t) m,
        q.2 ∈ l ∧ q.1 = key q.2 by
    intro q hq
    exact h l [] (by simp) (fun t ht => ht) q hq
  intro l2
  induction l2 with
  | nil =>
      intro m hm _ q hq
      exact hm q hq
  | cons t ts ih =>
      intro m hm hsub q hq
      rw [List.foldl_cons] at hq
      refine ih (updateAssoc m (key t) t) ?_
        (fun x hx => hsub x (List.mem_cons_of_mem _ hx)) q hq
      intro q2 hq2
      rcases mem_updateAssoc m (key t) t q2 hq2 with h2 | h2
      · exact hm q2 h2
      · subst h2
        exact ⟨hsub t (List.mem_cons_self _ _), rfl⟩

/-- Filtering an association list by key membership in `s` has the same
length as filtering its key list. -/
lemma length_filter_fst {α : Type} (m : List (String × α)) (s : List String) :
    (m.filter fun p => decide (p.1 ∈ s)).length =
      ((m.map Prod.fst).filter fun x => decide (x ∈ s)).length := by
  rw [List.filter_map, List.length_map]
  rfl

/-- The number of entries of `idMap key l` whose key lies in `s` is the
cardinality of the intersection of the two key sets. -/
lemma length_filter_idMap {α : Type} (key : α → String) (l : List α)
    (s : List String) :
    ((idMap key l).filter fun p => decide (p.1 ∈ s)).length =
      ((l.map key).toFinset ∩ s.toFinset).card := by
  rw [length_filter_fst]
  have hnd : (((idMap key l).map Prod.fst).filter
      fun x => decide (x ∈ s)).Nodup :=
    (idMap_keys_nodup key l).filter _
  rw [← List.toFinset_card_of_nodup hnd, List.toFinset_filter]
  congr 1
  ext x
  simp [mem_idMap_keys key l x]

/-- Inside the shared-item computation, testing a map entry's key against
the precomputed shared-id list is the same as testing it against the other
account's id list. -/
lemma filter_shared_eq {α : Type} (map1 : List (String × α)) (ids2 : List String) :
    (map1.filter fun p =>
      decide (p.1 ∈ (map1.map Prod.fst).filter fun i => decide (i ∈ ids2))) =
      map1.filter fun p => decide (p.1 ∈ ids2) := by
  apply List.filter_congr
  intro p hp
  have hk : p.1 ∈ map1.map Prod.fst := List.mem_map.mpr ⟨p, hp, rfl⟩
  by_cases h : p.1 ∈ ids2
  · simp [List.mem_filter, hk, h]
  · simp [List.mem_filter, h]

/-- A successful `listMapOption` preserves length. -/
lemma listMapOption_length {α β : Type} (f : α → Option β) :
    ∀ (l : List α) (l2 : List β), listMapOption f l = some l2 →
      l2.length = l.length := by
  intro l
  induction l with
  | nil =>
      intro l2 h
      simp only [listMapOption] at h
      cases h
      rfl
  | cons a l ih =>
      intro l2 h
      simp only [listMapOption] at h
      cases hf : f a <;> rw [hf] at h
      · exact Option.noConfusion h
      · cases hr : listMapOption f l <;> rw [hr] at h
        · exact Option.noConfusion h
        · cases h
          simp [ih _ hr]

/-- Every element of a successful `listMapOption` is the image of an element
of the input. -/
lemma mem_listMapOption {α β : Type} (f : α → Option β) :
    ∀ (l : List α) (l2 : List β), listMapOption f l = some l2 →
      ∀ b ∈ l2, ∃ a ∈ l, f a = some b := by
  intro l
  induction l with
  | nil =>
      intro l2 h b hb
      simp only [listMapOption] at h
      cases h
      exact absurd hb (by simp)
  | cons a l ih =>
      intro l2 h b hb
      simp only [listMapOption] at h
      cases hf : f a <;> rw [hf] at h
      · exact Option.noConfusion h
      · cases hr : listMapOption f l <;> rw [hr] at h
        · exact Option.noConfusion h
        · cases h
          rcases List.mem_cons.mp hb with rfl | hb2
          · exact ⟨a, List.mem_cons_self _ _, hf⟩
          · rcases ih _ hr b hb2 with ⟨a2, ha2, hfa2⟩
            exact ⟨a2, List.mem_cons_of_mem _ ha2, hfa2⟩

/-- The shared-artist list of `compare_users`: its length is the cardinality
of the intersection of the two accounts' artist-id sets, and every record is
materialized from one of account 1's raw artists whose id account 2 also
has. -/
lemma commonArtists_spec (raw1 raw2 : List RawArtist) :
    (commonArtists raw1 raw2).length =
      ((raw1.map RawArtist.id).toFinset ∩ (raw2.map RawArtist.id).toFinset).card
    ∧ ∀ sa ∈ commonArtists raw1 raw2, ∃ raw ∈ raw1,
        sharedArtistOf raw = sa ∧ raw.id ∈ raw2.map RawArtist.id := by
  have he : commonArtists raw1 raw2 =
      ((idMap RawArtist.id raw1).filter fun p =>
        decide (p.1 ∈ raw2.map RawArtist.id)).map fun p => sharedArtistOf p.2 := by
    rw [show commonArtists raw1 raw2 =
      ((idMap RawArtist.id raw1).filter fun p =>
        decide (p.1 ∈ ((idMap RawArtist.id raw1).map Prod.fst).filter
          fun i => decide (i ∈ raw2.map RawArtist.id))).map
        (fun p => sharedArtistOf p.2) from rfl]
    rw [filter_shared_eq]
  rw [he]
  constructor
  · rw [List.length_map, length_filter_idMap]
  · intro sa hsa
    rcases List.mem_map.mp hsa with ⟨p, hp, hsa2⟩
    rcases List.mem_filter.mp hp with ⟨hp1, hp2⟩
    obtain ⟨hmem, hkey⟩ := idMap_mem RawArtist.id raw1 p hp1
    refine ⟨p.2, hmem, hsa2, ?_⟩
    rw [← hkey]
    exact of_decide_eq_true hp2

/-- The shared-track list of `compare_users`, when it materializes: its
length is the cardinality of the intersection of the two accounts' track-id
sets, and every record comes from one of account 1's raw tracks whose id
account 2 also has. -/
lemma commonTracks_spec (raw1 raw2 : List RawTrack) (st : List SharedTrack)
    (h : commonTracks raw1 raw2 = some st) :
    st.length =
      ((raw1.map RawTrack.id).toFinset ∩ (raw2.map RawTrack.id).toFinset).card
    ∧ ∀ t ∈ st, ∃ raw ∈ raw1,
        sharedTrackOf raw = some t ∧ raw.id ∈ raw2.map RawTrack.id := by
  have he : commonTracks raw1 raw2 =
      listMapOption (fun p => sharedTrackOf p.2)
        ((idMap RawTrack.id raw1).filter fun p =>
          decide (p.1 ∈ raw2.map RawTrack.id)) := by
    rw [show commonTracks raw1 raw2 =
      listMapOption (fun p => sharedTrackOf p.2)
        ((idMap RawTrack.id raw1).filter fun p =>
          decide (p.1 ∈ ((idMap RawTrack.id raw1).map Prod.fst).filter
            fun i => decide (i ∈ raw2.map RawTrack.id))) from rfl]
    rw [filter_shared_eq]
  rw [he] at h
  constructor
  · rw [listMapOption_length _ _ _ h, length_filter_idMap]
  · intro t ht
    rcases mem_listMapOption _ _ _ h t ht with ⟨p, hp, hf⟩
    rcases List.mem_filter.mp hp with ⟨hp1, hp2⟩
    obtain ⟨hmem, hkey⟩ := idMap_mem RawTrack.id raw1 p hp1
    refine ⟨p.2, hmem, hf, ?_⟩
    rw [← hkey]
    exact of_decide_eq_true hp2

/-- Inversion of a successful comparison: every lookup and fetch succeeded,
both cards materialized, the shared lists come from `commonTracks` and
`commonArtists`, and the counts are their lengths. -/
lemma compare_users_ok_inv (env : Env) (a b : Nat) (r : CompareOut)
    (h : compare_users env a b = .ok r) :
    ∃ u1 u2 p1 p2 as1 as2 ts1 ts2 card1 card2 st,
      env.users.find? (fun u => u.id == a) = some u1 ∧
      env.users.find? (fun u => u.id == b) = some u2 ∧
      env.profileOf u1.access_token = some p1 ∧
      env.profileOf u2.access_token = some p2 ∧
      env.topArtistsOf u1.access_token = some as1 ∧
      env.topArtistsOf u2.access_token = some as2 ∧
      env.topTracksOf u1.access_token = some ts1 ∧
      env.topTracksOf u2.access_token = some ts2 ∧
      userCard p1 (as1.take 1) (ts1.take 1) = some card1 ∧
      userCard p2 (as2.take 1) (ts2.take 1) = some card2 ∧
      commonTracks (ts1.take 50) (ts2.take 50) = some st ∧
      r = { user1 := card1, user2 := card2,
            shared_track_count := st.length,
            shared_artist_count :=
              (commonArtists (as1.take 50) (as2.take 50)).length,
            shared_tracks := st,
            shared_artists := commonArtists (as1.take 50) (as2.take 50) } := by
  unfold compare_users at h
  repeat' split at h
  all_goals try exact Except.noConfusion h
  injection h with h2
  exact ⟨_, _, _, _, _, _, _, _, _, _, _,
    by assumption, by assumption, by assumption, by assumption,
    by assumption, by assumption, by assumption, by assumption,
    by assumption, by assumption, by assumption, h2.symm⟩

/-- C2: for existing accounts A and B with fetched taste data,
`Compare(A,B)` and `Compare(B,A)` agree on `shared_track_count` and
`shared_artist_count`, each count is the cardinality of the intersection of
the two top-50 id sets, and every materialized shared record is built from
the first-named account's copy of the item. -/
theorem compare_users_counts_symmetric (env : Env) (a b : Nat)
    (u1 u2 : User) (as1 as2 : List RawArtist) (ts1 ts2 : List RawTrack)
    (r r2 : CompareOut)
    (h1 : env.users.find? (fun u => u.id == a) = some u1)
    (h2 : env.users.find? (fun u => u.id == b) = some u2)
    (ha1 : env.topArtistsOf u1.access_token = some as1)
    (ha2 : env.topArtistsOf u2.access_token = some as2)
    (ht1 : env.topTracksOf u1.access_token = some ts1)
    (ht2 : env.topTracksOf u2.access_token = some ts2)
    (hr : compare_users env a b = .ok r)
    (hr2 : compare_users env b a = .ok r2) :
    r.shared_track_count = r2.shared_track_count
    ∧ r.shared_artist_count = r2.shared_artist_count
    ∧ r.shared_track_count =
        (((ts1.take 50).map RawTrack.id).toFinset ∩
          ((ts2.take 50).map RawTrack.id).toFinset).card
    ∧ r.shared_artist_count =
        (((as1.take 50).map RawArtist.id).toFinset ∩
          ((as2.take 50).map RawArtist.id).toFinset).card
    ∧ (∀ t ∈ r.shared_tracks, ∃ raw ∈ ts1.take 50,
        sharedTrackOf raw = some t ∧ raw.id ∈ (ts2.take 50).map RawTrack.id)
    ∧ (∀ sa ∈ r.shared_artists, ∃ raw ∈ as1.take 50,
        sharedArtistOf raw = sa ∧ raw.id ∈ (as2.take 50).map RawArtist.id) := by
  obtain ⟨v1, v2, q1, q2, bs1, bs2, vs1, vs2, c1, c2, st,
    g1, g2, gp1, gp2, ga1, ga2, gt1, gt2, gc1, gc2, gct, hre⟩ :=
    compare_users_ok_inv env a b r hr
  rw [h1] at g1; injection g1 with e1; subst e1
  rw [h2] at g2; injection g2 with e2; subst e2
  rw [ha1] at ga1; injection ga1 with e3; subst e3
  rw [ha2] at ga2; injection ga2 with e4; subst e4
  rw [ht1] at gt1; injection gt1 with e5; subst e5
  rw [ht2] at gt2; injection gt2 with e6; subst e6
  obtain ⟨w1, w2, m1, m2, cs1, cs2, us1, us2, d1, d2, st2,
    k1, k2, kp1, kp2, ka1, ka2, kt1, kt2, kc1, kc2, kct, hre2⟩ :=
    compare_users_ok_inv env b a r2 hr2
  rw [h2] at k1; injection k1 with f1; subst f1
  rw [h1] at k2; injection k2 with f2; subst f2
  rw [ha2] at ka1; injection ka1 with f3; subst f3
  rw [ha1] at ka2; injection ka2 with f4; subst f4
  rw [ht2] at kt1; injection kt1 with f5; subst f5
  rw [ht1] at kt2; injection kt2 with f6; subst f6
  obtain ⟨hstlen, hstmem⟩ := commonTracks_spec _ _ _ gct
  obtain ⟨hst2len, hst2mem⟩ := commonTracks_spec _ _ _ kct
  obtain ⟨halen, hamem⟩ := commonArtists_spec (as1.take 50) (as2.take 50)
  obtain ⟨ha2len, ha2mem⟩ := commonArtists_spec (as2.take 50) (as1.take 50)
  subst hre
  subst hre2
  refine ⟨?_, ?_, ?_, ?_, ?_, ?_⟩
  · show st.length = st2.length
    rw [hstlen, hst2len, Finset.inter_comm]
  · show (commonArtists (as1.take 50) (as2.take 50)).length =
      (commonArtists (as2.take 50) (as1.take 50)).length
    rw [halen, ha2len, Finset.inter_comm]
  · exact hstlen
  · exact halen
  · exact hstmem
  · exact hamem

/-- C4: `Compare(A,B)` is all-or-nothing: a missing account id yields
NotFound, and a failing taste fetch for either account makes the whole
comparison abort with no (partial) result. -/
theorem compare_users_all_or_nothing (env : Env) (a b : Nat) :
    ((env.users.find? (fun u => u.id == a) = none ∨
      env.users.find? (fun u => u.id == b) = none) →
      compare_users env a b = .error .notFound)
    ∧ (∀ u1 u2, env.users.find? (fun u => u.id == a) = some u1 →
        env.users.find? (fun u => u.id == b) = some u2 →
        (env.topArtistsOf u1.access_token = none ∨
         env.topArtistsOf u2.access_token = none ∨
         env.topTracksOf u1.access_token = none ∨
         env.topTracksOf u2.access_token = none) →
        ∀ r, compare_users env a b ≠ .ok r) := by
  constructor
  · intro h
    unfold compare_users
    rcases h with h | h
    · rw [h]
    · rw [h]
      cases env.users.find? fun u => u.id == a <;> rfl
  · intro u1 u2 h1 h2 hfail r hr
    obtain ⟨v1, v2, p1, p2, as1, as2, ts1, ts2, c1, c2, st,
      g1, g2, gp1, gp2, ga1, ga2, gt1, gt2, gc1, gc2, gct, hre⟩ :=
      compare_users_ok_inv env a b r hr
    rw [h1] at g1; injection g1 with e1; subst e1
    rw [h2] at g2; injection g2 with e2; subst e2
    rcases hfail with h | h | h | h
    · rw [h] at ga1
      exact Option.noConfusion ga1
    · rw [h] at ga2
      exact Option.noConfusion ga2
    · rw [h] at gt1
      exact Option.noConfusion gt1
    · rw [h] at gt2
      exact Option.noConfusion gt2

/-- Inversion of one kept candidate: the fetch succeeded, the entry carries
the candidate's id and handle, and the reported count is the positive
cardinality of the id-set intersection. -/
lemma suggestionFor_spec (env : Env) (ids : Finset String) (user : User)
    (s : Suggestion) (h : suggestionFor env ids user = some s) :
    s.id = user.id ∧ s.spotify_id = user.spotify_id ∧
    ∃ arts, env.topArtistsOf user.access_token = some arts ∧
      s.shared_artist_count =
        (ids ∩ ((arts.take 50).map RawArtist.id).toFinset).card ∧
      0 < s.shared_artist_count := by
  unfold suggestionFor at h
  cases hB : env.topArtistsOf user.access_token <;> rw [hB] at h
  case none => exact Option.noConfusion h
  case some arts =>
  simp only [] at h
  split at h
  case isTrue hov =>
    injection h with h2
    subst h2
    exact ⟨rfl, rfl, arts, rfl, rfl, hov⟩
  case isFalse hov => exact Option.noConfusion h

/-- C1: a successful ranking for a stored subject never contains the subject
itself, only contains candidates whose top-artist id set meets the
subject's (the reported count is the positive cardinality of that
intersection), and is sorted by overlap count descending. -/
theorem suggest_links_ranked (env : Env) (uid : Nat) (l : List Suggestion)
    (h : suggest_links env uid = .ok l) :
    ∃ cur subjArts, env.users.find? (fun u => u.id == uid) = some cur ∧
      env.topArtistsOf cur.access_token = some subjArts ∧
      (∀ s ∈ l, s.id ≠ uid
        ∧ 0 < s.shared_artist_count
        ∧ ∃ u ∈ env.users, u.id = s.id ∧ s.spotify_id = u.spotify_id ∧
            ∃ arts, env.topArtistsOf u.access_token = some arts ∧
              s.shared_artist_count =
                (((subjArts.take 50).map RawArtist.id).toFinset ∩
                  ((arts.take 50).map RawArtist.id).toFinset).card)
      ∧ List.Pairwise
          (fun s t => t.shared_artist_count ≤ s.shared_artist_count) l := by
  unfold suggest_links at h
  cases hf : env.users.find? (fun u => u.id == uid) <;> rw [hf] at h <;>
    simp only [] at h
  case none => exact Except.noConfusion h
  case some cur =>
  cases hA : env.topArtistsOf cur.access_token <;> rw [hA] at h <;>
    simp only [] at h
  case none => exact Except.noConfusion h
  case some subjArts =>
  injection h with hl
  refine ⟨cur, subjArts, rfl, hA, ?_, ?_⟩
  · intro s hs
    rw [← hl] at hs
    have hmem : s ∈ (env.users.filter fun u => u.id != uid).filterMap
        (suggestionFor env (((subjArts.take 50).map RawArtist.id).toFinset)) :=
      (List.mergeSort_perm _ _).mem_iff.mp hs
    rcases List.mem_filterMap.mp hmem with ⟨u, hu, hgu⟩
    rcases List.mem_filter.mp hu with ⟨huu, hneq⟩
    obtain ⟨hid, hsid, arts, harts, hcount, hpos⟩ :=
      suggestionFor_spec env _ u s hgu
    refine ⟨?_, hpos, u, huu, hid.symm, hsid, arts, harts, hcount⟩
    rw [hid]
    simpa using hneq
  · rw [← hl]
    have hsorted := @List.sorted_mergeSort Suggestion
      (fun s t => decide (t.shared_artist_count ≤ s.shared_artist_count))
      (fun x y z hxy hyz => by
        simp only [decide_eq_true_eq] at *
        exact Nat.le_trans hyz hxy)
      (fun x y => by
        simp only [Bool.or_eq_true, decide_eq_true_eq]
        exact Nat.le_total y.shared_artist_count x.shared_artist_count)
      ((env.users.filter fun u => u.id != uid).filterMap
        (suggestionFor env (((subjArts.take 50).map RawArtist.id).toFinset)))
    exact hsorted.imp fun hab => of_decide_eq_true hab

/-- `find?` is unaffected by pre-filtering with a predicate implied by the
search predicate. -/
lemma find_filter_of_imp {α : Type} (l : List α) (p q : α → Bool)
    (h : ∀ u, p u = true → q u = true) :
    (l.filter q).find? p = l.find? p := by
  induction l with
  | nil => rfl
  | cons u l ih =>
      cases hp : p u
      · cases hq : q u <;> simp [List.filter_cons, List.find?_cons, hp, hq, ih]
      · have hq := h u hp
        simp [List.filter_cons, List.find?_cons, hp, hq]

/-- Dropping the elements on which `g` yields nothing from a filter does not
change a `filterMap` of `g`. -/
lemma filterMap_filter_and_of_none {α β : Type} (l : List α) (p q : α → Bool)
    (g : α → Option β) (h : ∀ u ∈ l, q u = false → g u = none) :
    (l.filter fun a => p a && q a).filterMap g = (l.filter p).filterMap g := by
  induction l with
  | nil => rfl
  | cons u l ih =>
      have ih2 := ih fun v hv hqv => h v (List.mem_cons_of_mem _ hv) hqv
      cases hq : q u
      · have hgu := h u (List.mem_cons_self _ _) hq
        cases hp : p u <;> simp [List.filter_cons, hp, hq, hgu, ih2]
      · cases hp : p u
        · simp [List.filter_cons, hp, hq, ih2]
        · rw [List.filter_cons, List.filter_cons,
            if_pos (show ((p u && q u) = true) by simp [hp, hq]),
            if_pos hp]
          cases hg : g u
          · rw [List.filterMap_cons_none hg, List.filterMap_cons_none hg]
            exact ih2
          · rw [List.filterMap_cons_some hg, List.filterMap_cons_some hg, ih2]

/-- The candidate loop body only reads the catalog functions of the
environment, never its user table. -/
lemma suggestionFor_env_users (env : Env) (users2 : List User)
    (ids : Finset String) :
    suggestionFor { env with users := users2 } ids = suggestionFor env ids :=
  rfl

/-- C3: per-candidate error isolation of the ranking: removing every
candidate whose taste fetch fails from the store does not change the
result (failed candidates are skipped, reachable ones are kept), and as
long as the subject exists and its own fetch succeeds the operation
returns a result. -/
theorem suggest_links_error_isolation (env : Env) (uid : Nat) :
    suggest_links env uid =
      suggest_links { env with users := env.users.filter fun u =>
        u.id == uid || (env.topArtistsOf u.access_token).isSome } uid
    ∧ (∀ cur subjArts, env.users.find? (fun u => u.id == uid) = some cur →
        env.topArtistsOf cur.access_token = some subjArts →
        ∃ l, suggest_links env uid = .ok l) := by
  constructor
  · have hfind := find_filter_of_imp env.users (fun u => u.id == uid)
      (fun u => u.id == uid || (env.topArtistsOf u.access_token).isSome)
      (fun u hu => by simp [hu])
    unfold suggest_links
    simp only []
    rw [hfind]
    cases hf : env.users.find? (fun u => u.id == uid)
    · rfl
    case some cur =>
    simp only []
    cases hA : env.topArtistsOf cur.access_token
    · rfl
    case some subjArts =>
    simp only []
    rw [List.filter_filter]
    rw [filterMap_filter_and_of_none env.users (fun u => u.id != uid)
      (fun u => u.id == uid || (env.topArtistsOf u.access_token).isSome)
      (suggestionFor
        { env with users := env.users.filter fun u =>
            u.id == uid || (env.topArtistsOf u.access_token).isSome }
        (((subjArts.take 50).map RawArtist.id).toFinset))
      (fun u _ hq => by
        have hns : (env.topArtistsOf u.access_token).isSome = false := by
          rcases Bool.or_eq_false_iff.mp hq with ⟨_, h2⟩
          exact h2
        have hnone : env.topArtistsOf u.access_token = none :=
          Option.not_isSome_iff_eq_none.mp (by simp [hns])
        simp [suggestionFor, hnone])]
    rfl
  · intro cur subjArts hf hA
    refine ⟨((env.users.filter fun u => u.id != uid).filterMap
      (suggestionFor env
        (((subjArts.take 50).map RawArtist.id).toFinset))).mergeSort
          (fun s t => decide (t.shared_artist_count ≤ s.shared_artist_count)),
      ?_⟩
    unfold suggest_links
    rw [hf]
    simp only []
    rw [hA]

/-- Witness for C1 at the concrete store: ranking account 1 keeps only
account 2 (overlap 2); the zero-overlap account 3 and the unreachable
account 4 are absent, and every returned entry has positive overlap and is
not the subject. -/
theorem suggest_links_ranked_witness :
    suggest_links envRank 1 =
      .ok [{ id := 2, spotify_id := "sy", shared_artist_count := 2 }]
    ∧ ∀ s ∈ [({ id := 2, spotify_id := "sy", shared_artist_count := 2 } : Suggestion)],
        s.id ≠ 1 ∧ 0 < s.shared_artist_count := by
  have h0 : suggest_links envRank 1 =
      .ok (((envRank.users.filter fun u => u.id != 1).filterMap
        (suggestionFor envRank ((([rawArtistOf "a1", rawArtistOf "a2",
          rawArtistOf "a3"].take 50).map RawArtist.id).toFinset))).mergeSort
        fun s t => decide (t.shared_artist_count ≤ s.shared_artist_count)) :=
    rfl
  have h1 : ((envRank.users.filter fun u => u.id != 1).filterMap
      (suggestionFor envRank ((([rawArtistOf "a1", rawArtistOf "a2",
        rawArtistOf "a3"].take 50).map RawArtist.id).toFinset))) =
      [{ id := 2, spotify_id := "sy", shared_artist_count := 2 }] := by
    decide
  have heq : suggest_links envRank 1 =
      .ok [{ id := 2, spotify_id := "sy", shared_artist_count := 2 }] := by
    rw [h0, h1, List.mergeSort_singleton]
  rcases suggest_links_ranked envRank 1
    [{ id := 2, spotify_id := "sy", shared_artist_count := 2 }] heq with
    ⟨cur, subjArts, _, _, hall, _⟩
  exact ⟨heq, fun s hs => ⟨(hall s hs).1, (hall s hs).2.1⟩⟩

/-- Witness for C2 at the concrete store: comparing accounts 1 and 2 in both
orders yields one shared track and two shared artists either way. -/
theorem compare_users_counts_symmetric_witness :
    compare_users envRank 1 2 = .ok cmpOut12
    ∧ compare_users envRank 2 1 = .ok cmpOut21
    ∧ cmpOut12.shared_track_count = cmpOut21.shared_track_count
    ∧ cmpOut12.shared_artist_count = cmpOut21.shared_artist_count := by
  have h := compare_users_counts_symmetric envRank 1 2
    { id := 1, spotify_id := "sx", access_token := "t1", refresh_token := "r1" }
    { id := 2, spotify_id := "sy", access_token := "t2", refresh_token := "r2" }
    [rawArtistOf "a1", rawArtistOf "a2", rawArtistOf "a3"]
    [rawArtistOf "a2", rawArtistOf "a3", rawArtistOf "a4"]
    [rawTrackOf "s1", rawTrackOf "s2"]
    [rawTrackOf "s2", rawTrackOf "s3"]
    cmpOut12 cmpOut21 rfl rfl rfl rfl rfl rfl rfl rfl
  exact ⟨rfl, rfl, h.1, h.2.1⟩

/-- Witness for C3 at the concrete store: dropping the candidate with the
failing fetch (account 4) from the store leaves the ranking unchanged, and
the operation returns a result. -/
theorem suggest_links_error_isolation_witness :
    suggest_links envRank 1 =
      suggest_links { envRank with users := envRank.users.filter fun u =>
        u.id == 1 || (envRank.topArtistsOf u.access_token).isSome } 1
    ∧ ∃ l, suggest_links envRank 1 = .ok l := by
  refine ⟨(suggest_links_error_isolation envRank 1).1, ?_⟩
  exact (suggest_links_error_isolation envRank 1).2
    { id := 1, spotify_id := "sx", access_token := "t1", refresh_token := "r1" }
    [rawArtistOf "a1", rawArtistOf "a2", rawArtistOf "a3"] rfl rfl

/-- Witness for C4 at the concrete store: comparing with an unknown id 99
yields NotFound, and comparing accounts 1 and 4 — account 4's taste fetch
fails — yields no result at all. -/
theorem compare_users_all_or_nothing_witness :
    compare_users envRank 99 2 = .error .notFound
    ∧ ∀ r, compare_users envRank 1 4 ≠ .ok r := by
  constructor
  · exact (compare_users_all_or_nothing envRank 99 2).1 (Or.inl rfl)
  · intro r
    exact (compare_users_all_or_nothing envRank 1 4).2
      { id := 1, spotify_id := "sx", access_token := "t1",
        refresh_token := "r1" }
      { id := 4, spotify_id := "sw", access_token := "t4",
        refresh_token := "r4" }
      rfl rfl (Or.inr (Or.inl rfl)) r
